import Mathlib

/-!
Shallow embedding of the vergeos-exporter collector pipeline.

The definitions below are translated from the repository sources:

* `storageCollect` embeds the current `StorageCollector.Collect`
  (src/collectors/storage.go, MustNewConstMetric version): fetch system
  name, fetch storage tiers (authoritative set), emit capacity samples,
  fetch cluster tiers (detail records), filter phantom tiers, emit status
  samples.
* `legacyStorageCollect` embeds the legacy `StorageCollector.Collect`
  (GaugeVec/CounterVec version of src/collectors/storage.go): persistent
  label-keyed vectors mutated each cycle and re-collected wholesale.
* `BaseCollector.getSystemName` embeds the mutex-guarded name cache of
  src/collectors/base.go.
* `PhysicalStatus.unmarshalJSON` embeds the dual-shape unmarshaller of
  src/collectors/types.go.
* The drive-state classifier and aggregator are modelled from the spec
  (the implementation is not in the source tree; only its tests are).

Machine floats are modelled as exact rationals; fallible fetch/decode
steps are modelled as `Except`/`Option` inputs.
-/

/-- Kind of an emitted metric sample (gauge or counter), as declared to the
metrics sink. -/
inductive MetricKind where
  | gauge
  | counter
deriving DecidableEq, Repr

/-- One emitted metric sample: metric name, label values in declaration
order, numeric value, value kind. Mirrors one `prometheus.MustNewConstMetric`
emission (or one entry of a collected metric vector in the legacy shape). -/
structure Sample where
  name : String
  labels : List String
  value : ℚ
  kind : MetricKind
deriving DecidableEq, Repr

/-- SDK storage-tier record (the authoritative listing), with the fields
read by `StorageCollector.Collect`: tier number, description, capacity,
used, allocated, and the raw `DedupeRatio` (a uint32 holding ratio×100). -/
structure StorageTier where
  tier : Int
  description : String
  capacity : Int
  used : Int
  allocated : Int
  dedupeRatio : Int
deriving DecidableEq, Repr

/-- SDK cluster-tier status sub-record, with the fields read by
`StorageCollector.Collect`. Fields that are float64 in the SDK are ℚ here. -/
structure TierStatus where
  status : String
  transaction : Int
  repairs : Int
  working : Bool
  badDrives : ℚ
  encrypted : Bool
  redundant : Bool
  lastWalkTimeMs : Int
  lastFullwalkTimeMs : Int
  fullwalk : Bool
  progress : ℚ
  curSpaceThrottleMs : ℚ
deriving DecidableEq, Repr

/-- SDK cluster-tier detail record: the referenced tier number and the
optional status sub-record (`tier.Status` is a nullable pointer in Go). -/
structure ClusterTier where
  tier : Int
  status : Option TierStatus
deriving DecidableEq, Repr

/-- `boolToFloat64` from src/collectors/storage.go. -/
def boolToFloat64 (b : Bool) : ℚ := if b then 1 else 0

/-- The four capacity samples emitted for one authoritative storage tier
(first loop of the current `StorageCollector.Collect`). The SDK dedupe ratio
is divided by 100 exactly as in the source. -/
def capacitySamplesFor (systemName : String) (t : StorageTier) : List Sample :=
  [ ⟨"vergeos_vsan_tier_capacity", [systemName, toString t.tier, t.description],
      (t.capacity : ℚ), .gauge⟩,
    ⟨"vergeos_vsan_tier_used", [systemName, toString t.tier, t.description],
      (t.used : ℚ), .gauge⟩,
    ⟨"vergeos_vsan_tier_allocated", [systemName, toString t.tier, t.description],
      (t.allocated : ℚ), .gauge⟩,
    ⟨"vergeos_vsan_tier_dedupe_ratio", [systemName, toString t.tier, t.description],
      (t.dedupeRatio : ℚ) / 100, .gauge⟩ ]

/-- The status samples emitted for one cluster-tier detail record in the
current `StorageCollector.Collect`: a record whose tier is not in the
authoritative set is skipped (Bug #27 phantom filter), a record without a
status sub-record is skipped, otherwise the eleven status metrics are
emitted with labels (system name, tier, status string). -/
def statusSamplesFor (systemName : String) (validTiers : List Int)
    (d : ClusterTier) : List Sample :=
  if d.tier ∈ validTiers then
    match d.status with
    | none => []
    | some st =>
      [ ⟨"vergeos_vsan_tier_transaction", [systemName, toString d.tier, st.status],
          (st.transaction : ℚ), .counter⟩,
        ⟨"vergeos_vsan_tier_repairs", [systemName, toString d.tier, st.status],
          (st.repairs : ℚ), .gauge⟩,
        ⟨"vergeos_vsan_tier_state", [systemName, toString d.tier, st.status],
          boolToFloat64 st.working, .gauge⟩,
        ⟨"vergeos_vsan_bad_drives", [systemName, toString d.tier, st.status],
          st.badDrives, .gauge⟩,
        ⟨"vergeos_vsan_encryption_status", [systemName, toString d.tier, st.status],
          boolToFloat64 st.encrypted, .gauge⟩,
        ⟨"vergeos_vsan_redundant", [systemName, toString d.tier, st.status],
          boolToFloat64 st.redundant, .gauge⟩,
        ⟨"vergeos_vsan_last_walk_time_ms", [systemName, toString d.tier, st.status],
          (st.lastWalkTimeMs : ℚ), .gauge⟩,
        ⟨"vergeos_vsan_last_fullwalk_time_ms", [systemName, toString d.tier, st.status],
          (st.lastFullwalkTimeMs : ℚ), .gauge⟩,
        ⟨"vergeos_vsan_fullwalk_status", [systemName, toString d.tier, st.status],
          boolToFloat64 st.fullwalk, .gauge⟩,
        ⟨"vergeos_vsan_fullwalk_progress", [systemName, toString d.tier, st.status],
          st.progress, .gauge⟩,
        ⟨"vergeos_vsan_cur_space_throttle_ms", [systemName, toString d.tier, st.status],
          st.curSpaceThrottleMs, .gauge⟩ ]
  else []

/-- The current `StorageCollector.Collect` as a function of one cycle's
fetched data. Control flow follows the source: a system-name error returns
before any emission; a storage-tiers error returns before any emission; the
capacity samples are emitted while the authoritative tier set is built; a
cluster-tiers error returns with only the samples already emitted; otherwise
each detail record contributes its (possibly empty) status samples. -/
def storageCollect (sysName : Except String String)
    (storageTiers : Except String (List StorageTier))
    (clusterTiers : Except String (List ClusterTier)) : List Sample :=
  match sysName with
  | .error _ => []
  | .ok systemName =>
    match storageTiers with
    | .error _ => []
    | .ok tiers =>
      let validTiers := tiers.map (·.tier)
      let capacitySamples := tiers.flatMap (capacitySamplesFor systemName)
      match clusterTiers with
      | .error _ => capacitySamples
      | .ok details =>
        capacitySamples ++ details.flatMap (statusSamplesFor systemName validTiers)

/-- A system setting record as decoded by the legacy collectors
(key/value plus unused default and description fields). -/
structure Setting where
  key : String
  value : String
  defaultValue : String
  description : String
deriving DecidableEq, Repr

/-- Legacy storage-tier record: same fields as `StorageTier` except the
legacy `DedupeRatio` is a float64 set on the gauge without rescaling. -/
structure LegacyStorageTier where
  tier : Int
  description : String
  capacity : Int
  used : Int
  allocated : Int
  dedupeRatio : ℚ
deriving DecidableEq, Repr

/-- One node inside a legacy cluster-tier detail record: the machine state
string and the `physical_status.vsan_tier` of each of its drives (the only
fields the legacy Collect reads from it). -/
structure LegacyClusterNode where
  machineState : String
  driveTiers : List Int
deriving DecidableEq, Repr

/-- Legacy cluster-tier detail record, with the fields read by the legacy
Collect. Labels are built from `Status.Tier` and `Status.StatusDisplay`. -/
structure LegacyTierDetail where
  statusTier : Int
  statusDisplay : String
  transaction : Int
  repairs : Int
  working : Bool
  badDrives : Int
  encrypted : Bool
  redundant : Bool
  lastWalkTimeMs : Int
  lastFullwalkTimeMs : Int
  fullwalk : Bool
  progress : Int
  curSpaceThrottleMs : Int
  nodes : List LegacyClusterNode
deriving DecidableEq, Repr

/-- Legacy per-drive record: name, serial, vsan tier and the float64 stats
the legacy Collect feeds into its drive metric vectors. -/
structure LegacyDrive where
  name : String
  serial : String
  vsanTier : Int
  readOps : ℚ
  writeOps : ℚ
  readBytes : ℚ
  writeBytes : ℚ
  util : ℚ
  readErrors : ℚ
  writeErrors : ℚ
  avgLatency : ℚ
  maxLatency : ℚ
  repairs : ℚ
  throttle : ℚ
  wearLevel : ℚ
  powerOnHours : ℚ
  reallocSectors : ℚ
  temperature : ℚ
deriving DecidableEq, Repr

/-- One physical node in the legacy drive loop: the per-node dashboard
fetch either fails (`none`, the loop continues) or yields the drive list. -/
structure LegacyNodeEntry where
  name : String
  drives : Option (List LegacyDrive)
deriving DecidableEq, Repr

/-- One cycle's fetched data for the legacy Collect; `none` models a failed
or undecodable response at that step. -/
structure LegacyInput where
  settings : Option (List Setting)
  vsanTiers : Option (List LegacyStorageTier)
  tierDetails : Option (List LegacyTierDetail)
  nodes : Option (List LegacyNodeEntry)
deriving DecidableEq, Repr

/-- A label-vector key: metric name plus label values. -/
abbrev VecKey := String × List String

/-- The persistent contents of the legacy collector's GaugeVec/CounterVec
fields, pooled: each entry is one labelled child with its current value.
Entries persist across cycles until the process restarts. -/
abbrev VecState := List (VecKey × ℚ)

/-- Look up the current value of a labelled child. -/
def vecLookup : VecState → VecKey → Option ℚ
  | [], _ => none
  | (k0, v0) :: rest, k => if k0 = k then some v0 else vecLookup rest k

/-- `WithLabelValues(...).Set(x)` on a GaugeVec: replace the child's value,
creating the child if absent. -/
def vecSet : VecState → VecKey → ℚ → VecState
  | [], k, x => [(k, x)]
  | (k0, v0) :: rest, k, x =>
    if k0 = k then (k0, x) :: rest else (k0, v0) :: vecSet rest k x

/-- `WithLabelValues(...).Add(x)` on a CounterVec: add to the child's value,
creating the child at `x` if absent. -/
def vecAdd : VecState → VecKey → ℚ → VecState
  | [], k, x => [(k, x)]
  | (k0, v0) :: rest, k, x =>
    if k0 = k then (k0, v0 + x) :: rest else (k0, v0) :: vecAdd rest k x

/-- Metric names registered as CounterVec in the legacy collector; every
other vector is a GaugeVec. -/
def legacyCounterNames : List String :=
  [ "vergeos_drive_read_ops", "vergeos_drive_write_ops",
    "vergeos_drive_read_bytes", "vergeos_drive_write_bytes",
    "vergeos_drive_read_errors", "vergeos_drive_write_errors",
    "vergeos_drive_repairs", "vergeos_drive_wear_level",
    "vergeos_drive_power_on_hours", "vergeos_drive_reallocated_sectors",
    "vergeos_vsan_tier_transaction", "vergeos_vsan_tier_repairs" ]

/-- Value kind of a legacy metric name. -/
def legacyKindOf (name : String) : MetricKind :=
  if name ∈ legacyCounterNames then .counter else .gauge

/-- The vector updates performed for one legacy storage tier (capacity,
used, allocated, raw dedupe ratio). -/
def legacyTierUpdate (systemName : String) (v : VecState)
    (t : LegacyStorageTier) : VecState :=
  let L := [systemName, toString t.tier, t.description]
  let v := vecSet v ("vergeos_vsan_tier_capacity", L) (t.capacity : ℚ)
  let v := vecSet v ("vergeos_vsan_tier_used", L) (t.used : ℚ)
  let v := vecSet v ("vergeos_vsan_tier_allocated", L) (t.allocated : ℚ)
  vecSet v ("vergeos_vsan_tier_dedupe_ratio", L) t.dedupeRatio

/-- The vector updates performed for one legacy cluster-tier detail record:
two counter Adds, nine gauge Sets, then the online-node and online-drive
counts. There is no phantom filter in the legacy collector. -/
def legacyDetailUpdate (systemName : String) (v : VecState)
    (d : LegacyTierDetail) : VecState :=
  let L := [systemName, toString d.statusTier, d.statusDisplay]
  let v := vecAdd v ("vergeos_vsan_tier_transaction", L) (d.transaction : ℚ)
  let v := vecAdd v ("vergeos_vsan_tier_repairs", L) (d.repairs : ℚ)
  let v := vecSet v ("vergeos_vsan_tier_state", L) (boolToFloat64 d.working)
  let v := vecSet v ("vergeos_vsan_bad_drives", L) (d.badDrives : ℚ)
  let v := vecSet v ("vergeos_vsan_encryption_status", L) (boolToFloat64 d.encrypted)
  let v := vecSet v ("vergeos_vsan_redundant", L) (boolToFloat64 d.redundant)
  let v := vecSet v ("vergeos_vsan_last_walk_time_ms", L) (d.lastWalkTimeMs : ℚ)
  let v := vecSet v ("vergeos_vsan_last_fullwalk_time_ms", L) (d.lastFullwalkTimeMs : ℚ)
  let v := vecSet v ("vergeos_vsan_fullwalk_status", L) (boolToFloat64 d.fullwalk)
  let v := vecSet v ("vergeos_vsan_fullwalk_progress", L) (d.progress : ℚ)
  let v := vecSet v ("vergeos_vsan_cur_space_throttle_ms", L) (d.curSpaceThrottleMs : ℚ)
  let onlineNodes := (d.nodes.filter (fun n => n.machineState == "online")).length
  let onlineDrives := (d.nodes.flatMap (fun n => n.driveTiers)).count d.statusTier
  let v := vecSet v ("vergeos_vsan_nodes_online", L) (onlineNodes : ℚ)
  vecSet v ("vergeos_vsan_drives_online", L) (onlineDrives : ℚ)

/-- The vector updates performed for one drive of one node in the legacy
drive loop. -/
def legacyDriveUpdate (systemName nodeName : String) (v : VecState)
    (d : LegacyDrive) : VecState :=
  let L := [systemName, nodeName, d.name, toString d.vsanTier, d.serial]
  let v := vecAdd v ("vergeos_drive_read_ops", L) d.readOps
  let v := vecAdd v ("vergeos_drive_write_ops", L) d.writeOps
  let v := vecAdd v ("vergeos_drive_read_bytes", L) d.readBytes
  let v := vecAdd v ("vergeos_drive_write_bytes", L) d.writeBytes
  let v := vecSet v ("vergeos_drive_util", L) d.util
  let v := vecAdd v ("vergeos_drive_read_errors", L) d.readErrors
  let v := vecAdd v ("vergeos_drive_write_errors", L) d.writeErrors
  let v := vecSet v ("vergeos_drive_avg_latency", L) d.avgLatency
  let v := vecSet v ("vergeos_drive_max_latency", L) d.maxLatency
  let v := vecAdd v ("vergeos_drive_repairs", L) d.repairs
  let v := vecSet v ("vergeos_drive_throttle", L) d.throttle
  let v := vecAdd v ("vergeos_drive_wear_level", L) d.wearLevel
  let v := vecAdd v ("vergeos_drive_power_on_hours", L) d.powerOnHours
  let v := vecAdd v ("vergeos_drive_reallocated_sectors", L) d.reallocSectors
  vecSet v ("vergeos_drive_temperature", L) d.temperature

/-- The vector updates for one node of the legacy drive loop: a failed
per-node fetch contributes nothing and the loop continues. -/
def legacyNodeUpdate (systemName : String) (v : VecState)
    (n : LegacyNodeEntry) : VecState :=
  match n.drives with
  | none => v
  | some ds => ds.foldl (legacyDriveUpdate systemName n.name) v

/-- The legacy collector's cross-cycle mutable state: the cached system
name and the pooled vector contents. -/
structure LegacyState where
  systemName : String
  vecs : VecState
deriving DecidableEq, Repr

/-- Fresh legacy collector state: the constructor sets the system name to
"unknown" and all vectors start empty. -/
def legacyInitialState : LegacyState := ⟨"unknown", []⟩

/-- Collecting every child of every vector at the end of a successful
legacy cycle. -/
def legacyEmit (v : VecState) : List Sample :=
  v.map (fun e => ⟨e.1.1, e.1.2, e.2, legacyKindOf e.1.1⟩)

/-- The legacy `StorageCollector.Collect` as a state transformer over one
cycle's fetched data. Control flow follows the source: any failed step
returns with zero samples emitted this cycle (but vector updates already
performed are retained); on success every vector child — including children
created in earlier cycles — is collected. -/
def legacyStorageCollect (st : LegacyState) (inp : LegacyInput) :
    LegacyState × List Sample :=
  match inp.settings with
  | none => (st, [])
  | some settings =>
    let systemName :=
      match settings.find? (fun s => s.key == "cloud_name") with
      | some s => s.value
      | none => st.systemName
    if systemName = "" then ({ st with systemName := systemName }, [])
    else
      match inp.vsanTiers with
      | none => ({ st with systemName := systemName }, [])
      | some tiers =>
        let v := tiers.foldl (legacyTierUpdate systemName) st.vecs
        match inp.tierDetails with
        | none => ({ systemName := systemName, vecs := v }, [])
        | some details =>
          let v := details.foldl (legacyDetailUpdate systemName) v
          match inp.nodes with
          | none => ({ systemName := systemName, vecs := v }, [])
          | some nodes =>
            let v := nodes.foldl (legacyNodeUpdate systemName) v
            ({ systemName := systemName, vecs := v }, legacyEmit v)

/-- A detail record with the given status display string and transaction
count 100 (used by the concrete legacy cycles below). -/
def legacyDetailWith (statusDisplay : String) : LegacyTierDetail :=
  { statusTier := 0, statusDisplay := statusDisplay, transaction := 100,
    repairs := 0, working := true, badDrives := 0, encrypted := true,
    redundant := true, lastWalkTimeMs := 1, lastFullwalkTimeMs := 2,
    fullwalk := false, progress := 0, curSpaceThrottleMs := 0, nodes := [] }

/-- A legacy cycle whose single detail record reports status "online". -/
def legacyCycleOnline : LegacyInput :=
  { settings := some [⟨"cloud_name", "s", "", ""⟩],
    vsanTiers := some [],
    tierDetails := some [legacyDetailWith "online"],
    nodes := some [] }

/-- The same cycle with the detail record's status changed to "repairing". -/
def legacyCycleRepairing : LegacyInput :=
  { settings := some [⟨"cloud_name", "s", "", ""⟩],
    vsanTiers := some [],
    tierDetails := some [legacyDetailWith "repairing"],
    nodes := some [] }

/-- A legacy cycle carrying exactly one detail record and nothing else. -/
def legacySingleDetailCycle (systemName : String) (d : LegacyTierDetail) :
    LegacyInput :=
  { settings := some [⟨"cloud_name", systemName, "", ""⟩],
    vsanTiers := some [],
    tierDetails := some [d],
    nodes := some [] }

/-- The current collector's only cross-cycle fields are immutable metric
descriptors; a cycle reads them and leaves them untouched. -/
def modernStorageCycle (descriptors : Unit) (sysName : Except String String)
    (sTiers : Except String (List StorageTier))
    (cTiers : Except String (List ClusterTier)) : Unit × List Sample :=
  (descriptors, storageCollect sysName sTiers cTiers)

/-- First legacy run on the "online" cycle. -/
def legacyRunOnce : LegacyState × List Sample :=
  legacyStorageCollect legacyInitialState legacyCycleOnline

/-- Second legacy run on the identical "online" cycle. -/
def legacyRunTwice : LegacyState × List Sample :=
  legacyStorageCollect legacyRunOnce.1 legacyCycleOnline

/-- The shared cross-cycle state of `BaseCollector`: the cached system
name, where "" means not yet populated. The mutex serializes calls, so the
sequential call model below captures each call's effect on the cache. -/
structure NameCache where
  systemName : String
deriving DecidableEq, Repr

/-- Outcome of one remote `Settings.GetCloudName` fetch. -/
inductive FetchResult where
  | ok (name : String)
  | err (msg : String)
deriving DecidableEq, Repr

/-- `BaseCollector.GetSystemName`: return the cached name when non-empty
without fetching; otherwise fetch, cache the name on success, and leave the
cache unchanged on failure while returning a wrapped error. The Bool
records whether a remote fetch was performed. -/
def getSystemName (c : NameCache) (fetch : FetchResult) :
    (Except String String) × NameCache × Bool :=
  if c.systemName ≠ "" then (.ok c.systemName, c, false)
  else
    match fetch with
    | .ok name => (.ok name, ⟨name⟩, true)
    | .err msg => (.error ("failed to get system name: " ++ msg), c, true)

/-- A sequence of `GetSystemName` calls, threading the cache; each call
consumes the corresponding fetch outcome (unused when the cache hits). -/
def runGetSystemName (c : NameCache) :
    List FetchResult → List ((Except String String) × Bool) × NameCache
  | [] => ([], c)
  | f :: fs =>
    let r := getSystemName c f
    let rest := runGetSystemName r.2.1 fs
    ((r.1, r.2.2) :: rest.1, rest.2)

/-- A JSON value as relevant to `PhysicalStatus.UnmarshalJSON`. Numbers are
the integer literals of the ID-reference shape (Go also treats `null` as a
successful no-op when unmarshalling into an int, so `null` takes the same
branch). -/
inductive Json where
  | num (n : Int)
  | str (s : String)
  | bool (b : Bool)
  | null
  | arr (elems : List Json)
  | obj (fields : List (String × Json))

/-- The `PhysicalStatus` struct of src/collectors/types.go. The float64
`temp` field is ℚ. -/
structure PhysicalStatus where
  bus : String
  model : String
  driveSize : Int
  fw : String
  path : String
  serial : String
  vsanTier : Int
  vsanPath : String
  vsanDriveID : Int
  locateStatus : String
  vsanRepairing : Int
  vsanReadErrors : Int
  vsanWriteErrors : Int
  temp : ℚ
  location : String
  hours : Int
  reallocSectors : Int
  wearLevel : Int
deriving DecidableEq, Repr

/-- The Go zero value of `PhysicalStatus`: what a freshly allocated struct
holds before unmarshalling touches any field. -/
def PhysicalStatus.zero : PhysicalStatus :=
  ⟨"", "", 0, "", "", "", 0, "", 0, "", 0, 0, 0, 0, "", 0, 0, 0⟩

/-- The value stored under `key`, later duplicates winning as in Go. -/
def lookupField (fields : List (String × Json)) (key : String) : Option Json :=
  fields.reverse.lookup key

/-- Decode a string-typed struct field from a JSON object: an absent key or
`null` leaves the zero value; a string decodes; anything else is a type
error. -/
def decodeStrField (fields : List (String × Json)) (key : String) :
    Except String String :=
  match lookupField fields key with
  | none => .ok ""
  | some .null => .ok ""
  | some (.str s) => .ok s
  | some _ => .error ("cannot unmarshal field " ++ key)

/-- Decode an int-typed struct field from a JSON object. -/
def decodeIntField (fields : List (String × Json)) (key : String) :
    Except String Int :=
  match lookupField fields key with
  | none => .ok 0
  | some .null => .ok 0
  | some (.num n) => .ok n
  | some _ => .error ("cannot unmarshal field " ++ key)

/-- Decode a float64-typed struct field from a JSON object. -/
def decodeNumField (fields : List (String × Json)) (key : String) :
    Except String ℚ :=
  match lookupField fields key with
  | none => .ok 0
  | some .null => .ok 0
  | some (.num n) => .ok (n : ℚ)
  | some _ => .error ("cannot unmarshal field " ++ key)

/-- Decoding a JSON object into the `PhysicalStatusAlias` struct: every
known key must hold a value of the field's type, unknown keys are ignored,
absent keys keep the zero value. -/
def decodePhysicalStatusObj (fields : List (String × Json)) :
    Except String PhysicalStatus := do
  let bus ← decodeStrField fields "bus"
  let model ← decodeStrField fields "model"
  let driveSize ← decodeIntField fields "drive_size"
  let fw ← decodeStrField fields "fw"
  let path ← decodeStrField fields "path"
  let serial ← decodeStrField fields "phys_serial"
  let vsanTier ← decodeIntField fields "vsan_tier"
  let vsanPath ← decodeStrField fields "vsan_path"
  let vsanDriveID ← decodeIntField fields "vsan_driveid"
  let locateStatus ← decodeStrField fields "locate_status"
  let vsanRepairing ← decodeIntField fields "vsan_repairing"
  let vsanReadErrors ← decodeIntField fields "vsan_read_errors"
  let vsanWriteErrors ← decodeIntField fields "vsan_write_errors"
  let temp ← decodeNumField fields "temp"
  let location ← decodeStrField fields "location"
  let hours ← decodeIntField fields "hours"
  let reallocSectors ← decodeIntField fields "realloc_sectors"
  let wearLevel ← decodeIntField fields "wear_level"
  return ⟨bus, model, driveSize, fw, path, serial, vsanTier, vsanPath,
    vsanDriveID, locateStatus, vsanRepairing, vsanReadErrors,
    vsanWriteErrors, temp, location, hours, reallocSectors, wearLevel⟩

/-- `PhysicalStatus.UnmarshalJSON`: first try to unmarshal as a number (an
ID reference) and in that case set VsanTier to 1 and VsanRepairing to 0 so
the drive is processed rather than skipped; otherwise unmarshal as the
struct and propagate only that decode's error. -/
def PhysicalStatus.unmarshalJSON (j : Json) : Except String PhysicalStatus :=
  match j with
  | .num _ => .ok { PhysicalStatus.zero with vsanTier := 1, vsanRepairing := 0 }
  | .null => .ok { PhysicalStatus.zero with vsanTier := 1, vsanRepairing := 0 }
  | .obj fields => decodePhysicalStatusObj fields
  | _ => .error "cannot unmarshal into PhysicalStatus"

/-- The closed set of canonical drive states. -/
inductive DriveState where
  | online
  | offline
  | repairing
  | initializing
  | verifying
  | noredundant
  | outofspace
deriving DecidableEq, Repr

/-- Modelled from the spec: a machine-drive record as consumed by the
drive-state pipeline (`collectDriveStateMetrics` is not in the source tree;
only its tests are). Per the tests the pipeline reads `node_display`,
`statuslist`, `vsan_tier` and `vsan_repairing`. -/
structure MachineDrive where
  nodeDisplay : String
  statusList : String
  vsanTier : Int
  vsanRepairing : Int
deriving DecidableEq, Repr

/-- Modelled from the spec: the drive state classifier. A positive repair
override forces `repairing` regardless of the reported state string;
otherwise the reported string maps to the matching canonical state, and an
unrecognized string is unclassified (`none`). -/
def classifyDrive (d : MachineDrive) : Option DriveState :=
  if d.vsanRepairing > 0 then some .repairing
  else if d.statusList = "online" then some .online
  else if d.statusList = "offline" then some .offline
  else if d.statusList = "repairing" then some .repairing
  else if d.statusList = "initializing" then some .initializing
  else if d.statusList = "verifying" then some .verifying
  else if d.statusList = "noredundant" then some .noredundant
  else if d.statusList = "outofspace" then some .outofspace
  else none

/-- One complete (node, tier) row: a count for each of the seven states. -/
structure StateCounts where
  online : Nat
  offline : Nat
  repairing : Nat
  initializing : Nat
  verifying : Nat
  noredundant : Nat
  outofspace : Nat
deriving DecidableEq, Repr

/-- The all-zero row. -/
def StateCounts.zero : StateCounts := ⟨0, 0, 0, 0, 0, 0, 0⟩

/-- Read one state's count out of a row. -/
def StateCounts.get (c : StateCounts) : DriveState → Nat
  | .online => c.online
  | .offline => c.offline
  | .repairing => c.repairing
  | .initializing => c.initializing
  | .verifying => c.verifying
  | .noredundant => c.noredundant
  | .outofspace => c.outofspace

/-- Add one entity's canonical state to a row; an unclassified entity
increments nothing. -/
def bumpCounts (c : StateCounts) : Option DriveState → StateCounts
  | none => c
  | some .online => { c with online := c.online + 1 }
  | some .offline => { c with offline := c.offline + 1 }
  | some .repairing => { c with repairing := c.repairing + 1 }
  | some .initializing => { c with initializing := c.initializing + 1 }
  | some .verifying => { c with verifying := c.verifying + 1 }
  | some .noredundant => { c with noredundant := c.noredundant + 1 }
  | some .outofspace => { c with outofspace := c.outofspace + 1 }

/-- Modelled from the spec: the (node, tier) keys observed this cycle —
one key per drive with a non-negative (non-sentinel) tier, deduplicated.
Drives with a negative tier create no row. -/
def driveKeys (drives : List MachineDrive) : List (String × Int) :=
  ((drives.filter (fun d => decide (0 ≤ d.vsanTier))).map
    (fun d => (d.nodeDisplay, d.vsanTier))).dedup

/-- Modelled from the spec: the complete row of state counts for one
(node, tier) key, accumulated over every drive mapping to that key. -/
def countsFor (drives : List MachineDrive) (k : String × Int) : StateCounts :=
  drives.foldl
    (fun c d =>
      if 0 ≤ d.vsanTier ∧ (d.nodeDisplay, d.vsanTier) = k then
        bumpCounts c (classifyDrive d)
      else c)
    StateCounts.zero

/-- Modelled from the spec: the grouped-counting aggregation — one complete
row for every key observed this cycle and no row for unobserved keys. -/
def driveStateAgg (drives : List MachineDrive) :
    List ((String × Int) × StateCounts) :=
  (driveKeys drives).map (fun k => (k, countsFor drives k))

/-- Metric name of one per-state drive count, per the tests. -/
def driveStateMetricName : DriveState → String
  | .online => "vergeos_vsan_drive_online_count"
  | .offline => "vergeos_vsan_drive_offline_count"
  | .repairing => "vergeos_vsan_drive_repairing_count"
  | .initializing => "vergeos_vsan_drive_initializing_count"
  | .verifying => "vergeos_vsan_drive_verifying_count"
  | .noredundant => "vergeos_vsan_drive_noredundant_count"
  | .outofspace => "vergeos_vsan_drive_outofspace_count"

/-- The seven canonical states in emission order. -/
def driveStateOrder : List DriveState :=
  [.online, .offline, .repairing, .initializing, .verifying,
    .noredundant, .outofspace]

/-- Modelled from the spec: the emitted drive-state samples — seven gauges
per observed (node, tier) row, labelled (system name, node, tier), each
carrying the (possibly zero) count of that state. -/
def driveStateSamples (systemName : String) (drives : List MachineDrive) :
    List Sample :=
  (driveStateAgg drives).flatMap (fun row =>
    driveStateOrder.map (fun st =>
      ⟨driveStateMetricName st, [systemName, row.1.1, toString row.1.2],
        ((row.2.get st : Nat) : ℚ), .gauge⟩))

/-- The drive dataset of the repository's drive-state monitoring test. -/
def testDrives : List MachineDrive :=
  [ ⟨"node1", "online", 0, 0⟩, ⟨"node1", "online", 0, 0⟩,
    ⟨"node1", "online", 0, 0⟩, ⟨"node2", "offline", 0, 0⟩,
    ⟨"node2", "initializing", 0, 0⟩, ⟨"node2", "verifying", 0, 0⟩,
    ⟨"node3", "online", 0, 1⟩,
    ⟨"node1", "online", 1, 0⟩, ⟨"node1", "online", 1, 0⟩,
    ⟨"node2", "online", 1, 0⟩, ⟨"node2", "online", 1, 0⟩,
    ⟨"node3", "noredundant", 1, 0⟩, ⟨"node3", "outofspace", 1, 0⟩ ]

/-- A detail record without a status sub-record contributes no samples,
whatever the authoritative set is. -/
theorem statusSamplesFor_none (systemName : String) (validTiers : List Int)
    (d : ClusterTier) (hd : d.status = none) :
    statusSamplesFor systemName validTiers d = [] := by
  by_cases hv : d.tier ∈ validTiers <;> simp [statusSamplesFor, hv, hd]

/-- A detail record whose tier is outside the authoritative set contributes
no samples, whatever its status sub-record holds. -/
theorem statusSamplesFor_not_mem (systemName : String) (validTiers : List Int)
    (d : ClusterTier) (hv : d.tier ∉ validTiers) :
    statusSamplesFor systemName validTiers d = [] := by
  simp [statusSamplesFor, hv]

example : storageCollect (.error "x") (.ok []) (.ok []) = [] := by rfl

example :
    storageCollect (.ok "s") (.ok [⟨0, "d", 7, 3, 5, 150⟩]) (.error "x") =
      [ ⟨"vergeos_vsan_tier_capacity", ["s", "0", "d"], 7, .gauge⟩,
        ⟨"vergeos_vsan_tier_used", ["s", "0", "d"], 3, .gauge⟩,
        ⟨"vergeos_vsan_tier_allocated", ["s", "0", "d"], 5, .gauge⟩,
        ⟨"vergeos_vsan_tier_dedupe_ratio", ["s", "0", "d"], 3/2, .gauge⟩ ] := by
  norm_num [storageCollect, capacitySamplesFor, Sample.mk.injEq]
  rfl

/-- Claim C1 (counterexample): a detail record whose tier key IS in the
authoritative set but whose status sub-record is absent emits zero samples,
so "emits samples if and only if the tier key is present" fails in the
"if" direction. -/
theorem claimC1_counterexample :
    (0 : Int) ∈ [(0 : Int)] ∧
      statusSamplesFor "s" [0] ⟨0, none⟩ = [] := by
  exact ⟨by decide, rfl⟩

/-- Claim C1 (amended): a detail record emits status samples iff its tier
key is in the authoritative set AND its status sub-record is present; in
particular an absent key yields zero samples, and an empty authoritative
set yields zero samples overall no matter how many detail records exist. -/
theorem claimC1_phantom_filter (systemName : String) (validTiers : List Int)
    (d : ClusterTier) :
    (statusSamplesFor systemName validTiers d ≠ [] ↔
      d.tier ∈ validTiers ∧ d.status.isSome) ∧
    (∀ details, storageCollect (.ok systemName) (.ok []) (.ok details) = []) := by
  constructor
  · by_cases hv : d.tier ∈ validTiers
    · cases hst : d.status <;> simp [statusSamplesFor, hv, hst]
    · simp [statusSamplesFor, hv]
  · intro details
    simp only [storageCollect, List.flatMap_nil, List.nil_append]
    induction details with
    | nil => rfl
    | cons d rest ih =>
      rw [List.flatMap_cons, statusSamplesFor_not_mem _ _ _ (by simp), ih]
      rfl

/-- Claim C5 (counterexample): when the cluster-tiers fetch fails after the
storage-tiers fetch succeeded, the cycle has already emitted the four
capacity samples, so a fetch failure does not always yield zero samples:
partial emission exists. -/
theorem claimC5_counterexample :
    storageCollect (.ok "s") (.ok [⟨0, "d", 7, 3, 5, 150⟩]) (.error "boom") =
      capacitySamplesFor "s" ⟨0, "d", 7, 3, 5, 150⟩ ∧
    capacitySamplesFor "s" ⟨0, "d", 7, 3, 5, 150⟩ ≠ [] := by
  exact ⟨rfl, by simp [capacitySamplesFor]⟩

/-- Claim C5 (amended): a system-name failure or a storage-tiers failure
emits zero samples for the cycle, but a cluster-tiers failure leaves the
capacity samples already emitted for the authoritative tiers: only the
status samples are missing. -/
theorem claimC5_error_emission (e systemName : String)
    (a : Except String (List StorageTier)) (b : Except String (List ClusterTier))
    (tiers : List StorageTier) :
    storageCollect (.error e) a b = [] ∧
    storageCollect (.ok systemName) (.error e) b = [] ∧
    storageCollect (.ok systemName) (.ok tiers) (.error e) =
      tiers.flatMap (capacitySamplesFor systemName) := by
  exact ⟨rfl, rfl, rfl⟩

/-- Claim C9: a detail record that passes the phantom filter but has no
status sub-record contributes nothing — the cycle's output is the same as
if the record were absent — while the remaining records are processed
normally and the tier's authoritative capacity sample is still emitted. -/
theorem claimC9_missing_status (systemName : String) (tiers : List StorageTier)
    (l1 l2 : List ClusterTier) (d : ClusterTier) (t : StorageTier)
    (ht : t ∈ tiers) (hd : d.status = none) :
    storageCollect (.ok systemName) (.ok tiers) (.ok (l1 ++ d :: l2)) =
      storageCollect (.ok systemName) (.ok tiers) (.ok (l1 ++ l2)) ∧
    (⟨"vergeos_vsan_tier_capacity", [systemName, toString t.tier, t.description],
        (t.capacity : ℚ), .gauge⟩ : Sample) ∈
      storageCollect (.ok systemName) (.ok tiers) (.ok (l1 ++ d :: l2)) := by
  constructor
  · simp only [storageCollect, List.flatMap_append, List.flatMap_cons,
      statusSamplesFor_none _ _ _ hd, List.nil_append]
  · simp only [storageCollect]
    refine List.mem_append.mpr (Or.inl ?_)
    refine List.mem_flatMap.mpr ⟨t, ht, ?_⟩
    simp [capacitySamplesFor]

/-- Witness for claim C9 at a concrete input. -/
theorem claimC9_missing_status_witness :
    storageCollect (.ok "s") (.ok [⟨0, "d", 7, 3, 5, 150⟩])
        (.ok ([] ++ (⟨0, none⟩ : ClusterTier) :: [⟨0, some ⟨"online", 1, 0, true, 0, true, true, 2, 3, false, 0, 0⟩⟩])) =
      storageCollect (.ok "s") (.ok [⟨0, "d", 7, 3, 5, 150⟩])
        (.ok ([] ++ [⟨0, some ⟨"online", 1, 0, true, 0, true, true, 2, 3, false, 0, 0⟩⟩])) ∧
    (⟨"vergeos_vsan_tier_capacity", ["s", toString (0 : Int), "d"],
        ((7 : Int) : ℚ), .gauge⟩ : Sample) ∈
      storageCollect (.ok "s") (.ok [⟨0, "d", 7, 3, 5, 150⟩])
        (.ok ([] ++ (⟨0, none⟩ : ClusterTier) :: [⟨0, some ⟨"online", 1, 0, true, 0, true, true, 2, 3, false, 0, 0⟩⟩])) :=
  claimC9_missing_status "s" [⟨0, "d", 7, 3, 5, 150⟩] [] _ ⟨0, none⟩
    ⟨0, "d", 7, 3, 5, 150⟩ (by simp) rfl

/-- Claim C2 (amended, const-metric collector): the emitted samples are a
pure function of the cycle's fetched data, and every emitted sample's tier
label refers to a tier of THIS cycle's authoritative set — so an entity
absent from the current cycle's data produces no sample this cycle. (The
legacy GaugeVec collector violates this; see the counterexample.) -/
theorem claimC2_no_stale_labels (systemName : String) (tiers : List StorageTier)
    (details : List ClusterTier) (s : Sample)
    (hs : s ∈ storageCollect (.ok systemName) (.ok tiers) (.ok details)) :
    ∃ t ∈ tiers, s.labels.get? 1 = some (toString t.tier) := by
  simp only [storageCollect] at hs
  rcases List.mem_append.mp hs with hmem | hmem
  · rcases List.mem_flatMap.mp hmem with ⟨t, ht, hin⟩
    refine ⟨t, ht, ?_⟩
    simp only [capacitySamplesFor, List.mem_cons, List.not_mem_nil, or_false] at hin
    rcases hin with h | h | h | h <;> subst h <;> rfl
  · rcases List.mem_flatMap.mp hmem with ⟨d, hd, hin⟩
    by_cases hv : d.tier ∈ tiers.map (·.tier)
    · rcases List.mem_map.mp hv with ⟨t, ht, htt⟩
      refine ⟨t, ht, ?_⟩
      cases hst : d.status with
      | none =>
        rw [statusSamplesFor_none _ _ _ hst] at hin
        exact absurd hin (List.not_mem_nil s)
      | some st =>
        simp only [statusSamplesFor, if_pos hv, hst, List.mem_cons,
          List.not_mem_nil, or_false] at hin
        rcases hin with h|h|h|h|h|h|h|h|h|h|h <;> subst h <;>
          simp [htt]
    · rw [statusSamplesFor_not_mem _ _ _ hv] at hin
      exact absurd hin (List.not_mem_nil s)

/-- Witness for claim C2's amended theorem at a concrete input. -/
theorem claimC2_no_stale_labels_witness :
    ∃ t ∈ [(⟨0, "d", 7, 3, 5, 150⟩ : StorageTier)],
      (Sample.mk "vergeos_vsan_tier_capacity"
          ["s", toString (0 : Int), "d"] 7 .gauge).labels.get? 1 =
        some (toString t.tier) :=
  claimC2_no_stale_labels "s" [⟨0, "d", 7, 3, 5, 150⟩] [] _
    (by simp [storageCollect, capacitySamplesFor])

/-- Claim C2 (counterexample): two consecutive cycles of the legacy
collector — the first with a detail record labelled "online", the second
where that record's status changed to "repairing" — still emit a sample
carrying the first cycle's "online" label combination in the second cycle,
although no record of the second cycle bears that status: the emitted set
is not a function of the current cycle's data alone. -/
theorem claimC2_counterexample :
    ((legacyStorageCollect
        (legacyStorageCollect legacyInitialState legacyCycleOnline).1
        legacyCycleRepairing).2.any
      (fun s => s.name == "vergeos_vsan_redundant" &&
        s.labels == ["s", "0", "online"])) = true ∧
    ((legacyCycleRepairing.tierDetails.getD []).all
      (fun d => d.statusDisplay != "online")) = true := by
  exact ⟨rfl, rfl⟩

/-- Setting a vector child does not change any other child. -/
theorem vecLookup_vecSet_ne (v : VecState) (k q : VecKey) (x : ℚ)
    (h : q ≠ k) : vecLookup (vecSet v k x) q = vecLookup v q := by
  induction v with
  | nil => simp [vecSet, vecLookup, Ne.symm h]
  | cons e rest ih =>
    obtain ⟨k0, v0⟩ := e
    by_cases hk : k0 = k
    · subst hk
      simp [vecSet, vecLookup, Ne.symm h]
    · simp only [vecSet, if_neg hk, vecLookup]
      by_cases hq : k0 = q
      · simp [hq]
      · simp [hq, ih]

/-- Adding to a vector child does not change any other child. -/
theorem vecLookup_vecAdd_ne (v : VecState) (k q : VecKey) (x : ℚ)
    (h : q ≠ k) : vecLookup (vecAdd v k x) q = vecLookup v q := by
  induction v with
  | nil => simp [vecAdd, vecLookup, Ne.symm h]
  | cons e rest ih =>
    obtain ⟨k0, v0⟩ := e
    by_cases hk : k0 = k
    · subst hk
      simp [vecAdd, vecLookup, Ne.symm h]
    · simp only [vecAdd, if_neg hk, vecLookup]
      by_cases hq : k0 = q
      · simp [hq]
      · simp [hq, ih]

/-- Adding to a vector child yields the previous value (0 when the child
did not exist) plus the addend: counter children accumulate. -/
theorem vecLookup_vecAdd_self (v : VecState) (k : VecKey) (x : ℚ) :
    vecLookup (vecAdd v k x) k = some ((vecLookup v k).getD 0 + x) := by
  induction v with
  | nil => simp [vecAdd, vecLookup]
  | cons e rest ih =>
    obtain ⟨k0, v0⟩ := e
    by_cases hk : k0 = k
    · subst hk
      simp [vecAdd, vecLookup]
    · simp [vecAdd, vecLookup, hk, ih]

/-- After one legacy cycle with a single detail record, the transaction
counter child holds its previous value (0 if it did not exist) plus the
fetched transaction count: the legacy `Add` accumulates across cycles. -/
theorem legacyTransactionAccumulates (st : LegacyState) (systemName : String)
    (d : LegacyTierDetail) (hsn : systemName ≠ "") :
    vecLookup (legacyStorageCollect st (legacySingleDetailCycle systemName d)).1.vecs
        ("vergeos_vsan_tier_transaction",
          [systemName, toString d.statusTier, d.statusDisplay]) =
      some ((vecLookup st.vecs
          ("vergeos_vsan_tier_transaction",
            [systemName, toString d.statusTier, d.statusDisplay])).getD 0
        + (d.transaction : ℚ)) := by
  simp only [legacyStorageCollect, legacySingleDetailCycle, List.find?,
    List.foldl_cons, List.foldl_nil, beq_self_eq_true, if_neg hsn]
  simp only [legacyDetailUpdate]
  rw [vecLookup_vecSet_ne _ _ _ _ (by simp), vecLookup_vecSet_ne _ _ _ _ (by simp),
    vecLookup_vecSet_ne _ _ _ _ (by simp), vecLookup_vecSet_ne _ _ _ _ (by simp),
    vecLookup_vecSet_ne _ _ _ _ (by simp), vecLookup_vecSet_ne _ _ _ _ (by simp),
    vecLookup_vecSet_ne _ _ _ _ (by simp), vecLookup_vecSet_ne _ _ _ _ (by simp),
    vecLookup_vecSet_ne _ _ _ _ (by simp), vecLookup_vecSet_ne _ _ _ _ (by simp),
    vecLookup_vecSet_ne _ _ _ _ (by simp),
    vecLookup_vecAdd_ne _ _ _ _ (by simp),
    vecLookup_vecAdd_self]

/-- Claim C7 (amended): re-running the const-metric Collect on an identical
fetched dataset emits identical samples (there is no mutable metric state),
but the legacy Collect's transaction CounterVec accumulates: after a second
run on the same single-detail dataset the stored transaction value is
`transaction + transaction`, not `transaction`. -/
theorem claimC7_idempotence (u : Unit) (a : Except String String)
    (b : Except String (List StorageTier)) (c : Except String (List ClusterTier))
    (st : LegacyState) (systemName : String) (d : LegacyTierDetail)
    (hsn : systemName ≠ "")
    (hfresh : vecLookup st.vecs ("vergeos_vsan_tier_transaction",
      [systemName, toString d.statusTier, d.statusDisplay]) = none) :
    (modernStorageCycle ((modernStorageCycle u a b c).1) a b c).2 =
      (modernStorageCycle u a b c).2 ∧
    vecLookup (legacyStorageCollect st (legacySingleDetailCycle systemName d)).1.vecs
        ("vergeos_vsan_tier_transaction",
          [systemName, toString d.statusTier, d.statusDisplay]) =
      some (d.transaction : ℚ) ∧
    vecLookup (legacyStorageCollect
        (legacyStorageCollect st (legacySingleDetailCycle systemName d)).1
        (legacySingleDetailCycle systemName d)).1.vecs
        ("vergeos_vsan_tier_transaction",
          [systemName, toString d.statusTier, d.statusDisplay]) =
      some ((d.transaction : ℚ) + (d.transaction : ℚ)) := by
  refine ⟨rfl, ?_, ?_⟩
  · rw [legacyTransactionAccumulates st systemName d hsn, hfresh]
    simp
  · rw [legacyTransactionAccumulates _ systemName d hsn,
      legacyTransactionAccumulates st systemName d hsn, hfresh]
    simp

/-- Witness for claim C7's amended theorem at a concrete input. -/
theorem claimC7_idempotence_witness :
    (modernStorageCycle ((modernStorageCycle () (.ok "s") (.ok []) (.ok [])).1)
        (.ok "s") (.ok []) (.ok [])).2 =
      (modernStorageCycle () (.ok "s") (.ok []) (.ok [])).2 ∧
    vecLookup (legacyStorageCollect legacyInitialState
        (legacySingleDetailCycle "s" (legacyDetailWith "online"))).1.vecs
        ("vergeos_vsan_tier_transaction",
          ["s", toString (legacyDetailWith "online").statusTier,
            (legacyDetailWith "online").statusDisplay]) =
      some ((legacyDetailWith "online").transaction : ℚ) ∧
    vecLookup (legacyStorageCollect
        (legacyStorageCollect legacyInitialState
          (legacySingleDetailCycle "s" (legacyDetailWith "online"))).1
        (legacySingleDetailCycle "s" (legacyDetailWith "online"))).1.vecs
        ("vergeos_vsan_tier_transaction",
          ["s", toString (legacyDetailWith "online").statusTier,
            (legacyDetailWith "online").statusDisplay]) =
      some (((legacyDetailWith "online").transaction : ℚ) +
        ((legacyDetailWith "online").transaction : ℚ)) :=
  claimC7_idempotence () (.ok "s") (.ok []) (.ok []) legacyInitialState "s"
    (legacyDetailWith "online") (by decide) rfl

/-- A successful lookup means the key is among the vector's keys. -/
theorem mem_keys_of_vecLookup (v : VecState) (k : VecKey) (x : ℚ)
    (h : vecLookup v k = some x) : k ∈ v.map Prod.fst := by
  induction v with
  | nil => cases h
  | cons e rest ih =>
    obtain ⟨k0, v0⟩ := e
    by_cases hk : k0 = k
    · simp [hk]
    · simp only [vecLookup, if_neg hk] at h
      simp [ih h]

/-- When the vector's keys are distinct, the collected output contains the
sample for key `k` at value `x` exactly when the lookup of `k` yields `x`. -/
theorem mem_legacyEmit_iff (v : VecState) (k : VecKey) (x : ℚ)
    (hnd : (v.map Prod.fst).Nodup) :
    (⟨k.1, k.2, x, legacyKindOf k.1⟩ : Sample) ∈ legacyEmit v ↔
      vecLookup v k = some x := by
  induction v with
  | nil => simp [legacyEmit, vecLookup]
  | cons e rest ih =>
    obtain ⟨k0, v0⟩ := e
    simp only [List.map_cons, List.nodup_cons] at hnd
    obtain ⟨hk0, hnd2⟩ := hnd
    constructor
    · intro hmem
      simp only [legacyEmit, List.map_cons, List.mem_cons] at hmem
      rcases hmem with heq | hmem
      · obtain ⟨h1, h2, h3, _⟩ := Sample.mk.injEq _ _ _ _ _ _ _ _ ▸ heq
        have hk : k0 = k := Prod.ext h1.symm h2.symm
        simp [vecLookup, hk, h3.symm]
      · have hl := (ih hnd2).mp hmem
        have hkmem := mem_keys_of_vecLookup _ _ _ hl
        have hk : k0 ≠ k := fun h => hk0 (h ▸ hkmem)
        simpa [vecLookup, if_neg hk] using hl
    · intro hl
      simp only [vecLookup] at hl
      by_cases hk : k0 = k
      · rw [if_pos hk] at hl
        obtain rfl : v0 = x := Option.some.inj hl
        subst hk
        simp [legacyEmit]
      · rw [if_neg hk] at hl
        simp only [legacyEmit, List.map_cons, List.mem_cons]
        exact Or.inr ((ih hnd2).mpr hl)

/-- Claim C7 (counterexample): running the legacy Collect twice on an
identical fetched dataset does NOT yield identical sample sets — the first
run emits the tier transaction counter at 100, the second at 200, and the
100-valued sample is gone from the second run's output. -/
theorem claimC7_counterexample :
    (⟨"vergeos_vsan_tier_transaction", ["s", toString (0 : Int), "online"],
        100, .counter⟩ : Sample) ∈ legacyRunOnce.2 ∧
    (⟨"vergeos_vsan_tier_transaction", ["s", toString (0 : Int), "online"],
        200, .counter⟩ : Sample) ∈ legacyRunTwice.2 ∧
    (⟨"vergeos_vsan_tier_transaction", ["s", toString (0 : Int), "online"],
        100, .counter⟩ : Sample) ∉ legacyRunTwice.2 := by
  have hnd1 : (legacyRunOnce.1.vecs.map Prod.fst).Nodup := by decide
  have hnd2 : (legacyRunTwice.1.vecs.map Prod.fst).Nodup := by decide
  have l1 : vecLookup legacyRunOnce.1.vecs
      ("vergeos_vsan_tier_transaction", ["s", toString (0 : Int), "online"]) =
        some 100 := by
    have h := legacyTransactionAccumulates legacyInitialState "s"
      (legacyDetailWith "online") (by decide)
    rw [show legacySingleDetailCycle "s" (legacyDetailWith "online") =
      legacyCycleOnline from rfl] at h
    show vecLookup (legacyStorageCollect legacyInitialState legacyCycleOnline).1.vecs
      ("vergeos_vsan_tier_transaction",
        ["s", toString ((legacyDetailWith "online").statusTier),
          (legacyDetailWith "online").statusDisplay]) = some 100
    rw [h]
    norm_num [legacyInitialState, vecLookup, legacyDetailWith]
  have l2 : vecLookup legacyRunTwice.1.vecs
      ("vergeos_vsan_tier_transaction", ["s", toString (0 : Int), "online"]) =
        some 200 := by
    have h := legacyTransactionAccumulates legacyRunOnce.1 "s"
      (legacyDetailWith "online") (by decide)
    rw [show legacySingleDetailCycle "s" (legacyDetailWith "online") =
      legacyCycleOnline from rfl] at h
    show vecLookup (legacyStorageCollect legacyRunOnce.1 legacyCycleOnline).1.vecs
      ("vergeos_vsan_tier_transaction",
        ["s", toString ((legacyDetailWith "online").statusTier),
          (legacyDetailWith "online").statusDisplay]) = some 200
    rw [h]
    rw [show (("vergeos_vsan_tier_transaction",
        ["s", toString ((legacyDetailWith "online").statusTier),
          (legacyDetailWith "online").statusDisplay]) : VecKey) =
      ("vergeos_vsan_tier_transaction", ["s", toString (0 : Int), "online"]) from rfl]
    rw [l1]
    norm_num [legacyDetailWith]
  refine ⟨?_, ?_, ?_⟩
  · exact (mem_legacyEmit_iff legacyRunOnce.1.vecs
      ("vergeos_vsan_tier_transaction", ["s", toString (0 : Int), "online"])
      100 hnd1).mpr l1
  · exact (mem_legacyEmit_iff legacyRunTwice.1.vecs
      ("vergeos_vsan_tier_transaction", ["s", toString (0 : Int), "online"])
      200 hnd2).mpr l2
  · intro hmem
    have hl := (mem_legacyEmit_iff legacyRunTwice.1.vecs
      ("vergeos_vsan_tier_transaction", ["s", toString (0 : Int), "online"])
      100 hnd2).mp hmem
    have : (100 : ℚ) = 200 := Option.some.inj (hl.symm.trans l2)
    norm_num at this

/-- Claim C8: the name cache is populated at most once and never
invalidated — a non-empty cache answers every call without a fetch; the
first successful fetch of a non-empty name populates the cache and every
later call returns that same name without fetching; a failed fetch returns
an error, leaves the cache empty, and the next call fetches again. -/
theorem claimC8_name_cache (c : NameCache) (f g : FetchResult)
    (n msg : String) (fs : List FetchResult)
    (hc : c.systemName ≠ "") (hn : n ≠ "") :
    getSystemName c f = (.ok c.systemName, c, false) ∧
    getSystemName ⟨""⟩ (.ok n) = (.ok n, ⟨n⟩, true) ∧
    (runGetSystemName ⟨n⟩ fs).1 = fs.map (fun _ => (.ok n, false)) ∧
    (getSystemName ⟨""⟩ (.err msg)).2.1 = ⟨""⟩ ∧
    (getSystemName ⟨""⟩ (.err msg)).1 =
      .error ("failed to get system name: " ++ msg) ∧
    (getSystemName ((getSystemName ⟨""⟩ (.err msg)).2.1) g).2.2 = true := by
  refine ⟨by simp [getSystemName, hc], rfl, ?_, rfl, rfl, by cases g <;> rfl⟩
  induction fs with
  | nil => rfl
  | cons f0 rest ih =>
    simp only [runGetSystemName, List.map_cons]
    rw [show getSystemName ⟨n⟩ f0 = (.ok n, ⟨n⟩, false) by
      simp [getSystemName, hn]]
    simp [ih]

/-- Witness for claim C8 at concrete inputs. -/
theorem claimC8_name_cache_witness :
    getSystemName ⟨"x"⟩ (.ok "y") = (.ok "x", ⟨"x"⟩, false) ∧
    getSystemName ⟨""⟩ (.ok "cloud") = (.ok "cloud", ⟨"cloud"⟩, true) ∧
    (runGetSystemName ⟨"cloud"⟩ [.err "a", .ok "b"]).1 =
      ([.err "a", .ok "b"] : List FetchResult).map
        (fun _ => (.ok "cloud", false)) ∧
    (getSystemName ⟨""⟩ (.err "m")).2.1 = ⟨""⟩ ∧
    (getSystemName ⟨""⟩ (.err "m")).1 =
      .error ("failed to get system name: " ++ "m") ∧
    (getSystemName ((getSystemName ⟨""⟩ (.err "m")).2.1) (.ok "z")).2.2 = true :=
  claimC8_name_cache ⟨"x"⟩ (.ok "y") (.ok "z") "cloud" "m" [.err "a", .ok "b"]
    (by decide) (by decide)

/-- Claim C10: the unmarshaller is total over both accepted shapes — every
bare number succeeds with VsanTier 1 and VsanRepairing 0 (the drive is
treated as tier 1 and not repairing), and a JSON object succeeds with the
normally decoded fields, erring exactly when the object decode errs. -/
theorem claimC10_unmarshal_total (n : Int)
    (goodFields badFields : List (String × Json))
    (ps : PhysicalStatus) (e : String)
    (hgood : decodePhysicalStatusObj goodFields = .ok ps)
    (hbad : decodePhysicalStatusObj badFields = .error e) :
    PhysicalStatus.unmarshalJSON (.num n) =
      .ok { PhysicalStatus.zero with vsanTier := 1, vsanRepairing := 0 } ∧
    (PhysicalStatus.unmarshalJSON (.num n)).isOk = true ∧
    PhysicalStatus.unmarshalJSON (.obj goodFields) = .ok ps ∧
    PhysicalStatus.unmarshalJSON (.obj badFields) = .error e :=
  ⟨rfl, rfl, hgood, hbad⟩

/-- Witness for claim C10 at concrete inputs: an ID reference 7, an object
setting tier 3 and a serial, and an object with a mistyped tier. -/
theorem claimC10_unmarshal_total_witness :
    PhysicalStatus.unmarshalJSON (.num 7) =
      .ok { PhysicalStatus.zero with vsanTier := 1, vsanRepairing := 0 } ∧
    (PhysicalStatus.unmarshalJSON (.num 7)).isOk = true ∧
    PhysicalStatus.unmarshalJSON
        (.obj [("vsan_tier", .num 3), ("phys_serial", .str "sn")]) =
      .ok { PhysicalStatus.zero with vsanTier := 3, serial := "sn" } ∧
    PhysicalStatus.unmarshalJSON (.obj [("vsan_tier", .str "oops")]) =
      .error ("cannot unmarshal field " ++ "vsan_tier") :=
  claimC10_unmarshal_total 7 [("vsan_tier", .num 3), ("phys_serial", .str "sn")]
    [("vsan_tier", .str "oops")]
    { PhysicalStatus.zero with vsanTier := 3, serial := "sn" }
    ("cannot unmarshal field " ++ "vsan_tier") rfl rfl

/-- Claim C3: a positive repair override forces the canonical state to
`repairing` regardless of the reported state, and such a drive is counted
in the repairing bucket and not in the online bucket. -/
theorem claimC3_repair_precedence (d : MachineDrive)
    (h : 0 < d.vsanRepairing) :
    classifyDrive d = some .repairing ∧
    ∀ c : StateCounts,
      (bumpCounts c (classifyDrive d)).repairing = c.repairing + 1 ∧
      (bumpCounts c (classifyDrive d)).online = c.online := by
  have hc : classifyDrive d = some .repairing := by
    simp [classifyDrive, h]
  refine ⟨hc, fun c => ?_⟩
  rw [hc]
  exact ⟨rfl, rfl⟩

/-- Witness for claim C3: a drive reported "online" with repair counter 1
(the test's node3 drive) classifies and counts as repairing. -/
theorem claimC3_repair_precedence_witness :
    classifyDrive ⟨"node3", "online", 0, 1⟩ = some .repairing ∧
    ∀ c : StateCounts,
      (bumpCounts c (classifyDrive ⟨"node3", "online", 0, 1⟩)).repairing =
        c.repairing + 1 ∧
      (bumpCounts c (classifyDrive ⟨"node3", "online", 0, 1⟩)).online =
        c.online :=
  claimC3_repair_precedence ⟨"node3", "online", 0, 1⟩ (by decide)

/-- Claim C4: every (node, tier) key to which at least one drive maps gets
a complete row — all seven states emitted as samples, unobserved states
carrying exactly 0 — and every emitted sample references an observed key,
so unobserved keys produce no sample. -/
theorem claimC4_complete_rows (systemName : String)
    (drives : List MachineDrive) (k : String × Int) (d : MachineDrive)
    (hd : d ∈ drives) (htier : 0 ≤ d.vsanTier)
    (hk : (d.nodeDisplay, d.vsanTier) = k) :
    (∀ st : DriveState, ∃ s ∈ driveStateSamples systemName drives,
        s.name = driveStateMetricName st ∧
        s.labels = [systemName, k.1, toString k.2] ∧
        s.value = ((countsFor drives k).get st : ℚ)) ∧
    (∀ s ∈ driveStateSamples systemName drives,
        ∃ q ∈ driveKeys drives, s.labels = [systemName, q.1, toString q.2]) := by
  have hkmem : k ∈ driveKeys drives := by
    simp only [driveKeys, List.mem_dedup, List.mem_map, List.mem_filter]
    exact ⟨d, ⟨hd, by simpa using htier⟩, hk⟩
  constructor
  · intro st
    refine ⟨⟨driveStateMetricName st, [systemName, k.1, toString k.2],
      ((countsFor drives k).get st : ℚ), .gauge⟩, ?_, rfl, rfl, rfl⟩
    simp only [driveStateSamples, List.mem_flatMap]
    refine ⟨(k, countsFor drives k), ?_, ?_⟩
    · simp only [driveStateAgg, List.mem_map]
      exact ⟨k, hkmem, rfl⟩
    · simp only [List.mem_map]
      refine ⟨st, ?_, rfl⟩
      cases st <;> simp [driveStateOrder]
  · intro s hs
    simp only [driveStateSamples, List.mem_flatMap] at hs
    obtain ⟨row, hrow, hsmem⟩ := hs
    simp only [driveStateAgg, List.mem_map] at hrow
    obtain ⟨q, hq, hrow2⟩ := hrow
    simp only [List.mem_map] at hsmem
    obtain ⟨st, hstmem, hseq⟩ := hsmem
    refine ⟨q, hq, ?_⟩
    subst hseq
    subst hrow2
    rfl

/-- Witness for claim C4 on the edge-case test data: node2's only drive is
unclassified, yet the (node2, 1) row appears complete with zero counts. -/
theorem claimC4_complete_rows_witness :
    (∀ st : DriveState, ∃ s ∈ driveStateSamples "test-system"
        [⟨"node1", "online", 1, 0⟩, ⟨"node1", "unknown_state", 1, 0⟩,
          ⟨"node2", "another_unknown", 1, 0⟩],
        s.name = driveStateMetricName st ∧
        s.labels = ["test-system", ("node2", (1 : Int)).1,
          toString (("node2", (1 : Int)).2)] ∧
        s.value = ((countsFor
          [⟨"node1", "online", 1, 0⟩, ⟨"node1", "unknown_state", 1, 0⟩,
            ⟨"node2", "another_unknown", 1, 0⟩] ("node2", 1)).get st : ℚ)) ∧
    (∀ s ∈ driveStateSamples "test-system"
        [⟨"node1", "online", 1, 0⟩, ⟨"node1", "unknown_state", 1, 0⟩,
          ⟨"node2", "another_unknown", 1, 0⟩],
        ∃ q ∈ driveKeys
          [⟨"node1", "online", 1, 0⟩, ⟨"node1", "unknown_state", 1, 0⟩,
            ⟨"node2", "another_unknown", 1, 0⟩],
          s.labels = ["test-system", q.1, toString q.2]) :=
  claimC4_complete_rows "test-system"
    [⟨"node1", "online", 1, 0⟩, ⟨"node1", "unknown_state", 1, 0⟩,
      ⟨"node2", "another_unknown", 1, 0⟩]
    ("node2", 1) ⟨"node2", "another_unknown", 1, 0⟩
    (by decide) (by decide) rfl

/-- Claim C6: an unclassified drive (unrecognized status string, repair
override not set) increments no state counter in any (node, tier) row, and
the remaining drives are still processed: counts are identical with and
without it, and every key observed without it stays observed. -/
theorem claimC6_unclassified (l1 l2 : List MachineDrive) (d : MachineDrive)
    (k : String × Int) (hun : classifyDrive d = none) :
    countsFor (l1 ++ d :: l2) k = countsFor (l1 ++ l2) k ∧
    (k ∈ driveKeys (l1 ++ l2) → k ∈ driveKeys (l1 ++ d :: l2)) := by
  constructor
  · have hb : ∀ c : StateCounts, bumpCounts c none = c := fun _ => rfl
    simp only [countsFor, List.foldl_append, List.foldl_cons, hun, hb, ite_self]
  · intro hk
    simp only [driveKeys, List.mem_dedup, List.mem_map, List.mem_filter] at hk ⊢
    obtain ⟨d0, ⟨hd0, ht⟩, hkey⟩ := hk
    refine ⟨d0, ⟨?_, ht⟩, hkey⟩
    simp only [List.mem_append, List.mem_cons] at hd0 ⊢
    tauto

/-- Witness for claim C6: inserting the edge-case test's unclassified drive
between two online drives leaves the (node1, 1) row's counts unchanged. -/
theorem claimC6_unclassified_witness :
    countsFor ([⟨"node1", "online", 1, 0⟩] ++
        (⟨"node1", "unknown_state", 1, 0⟩ : MachineDrive) ::
          [⟨"node2", "online", 1, 0⟩]) ("node1", 1) =
      countsFor ([⟨"node1", "online", 1, 0⟩] ++ [⟨"node2", "online", 1, 0⟩])
        ("node1", 1) ∧
    (("node1", (1 : Int)) ∈
        driveKeys ([⟨"node1", "online", 1, 0⟩] ++ [⟨"node2", "online", 1, 0⟩]) →
      ("node1", (1 : Int)) ∈
        driveKeys ([⟨"node1", "online", 1, 0⟩] ++
          (⟨"node1", "unknown_state", 1, 0⟩ : MachineDrive) ::
            [⟨"node2", "online", 1, 0⟩])) :=
  claimC6_unclassified [⟨"node1", "online", 1, 0⟩] [⟨"node2", "online", 1, 0⟩]
    ⟨"node1", "unknown_state", 1, 0⟩ ("node1", 1) (by decide)

example : countsFor testDrives ("node1", 0) = ⟨3, 0, 0, 0, 0, 0, 0⟩ := by decide

example : countsFor testDrives ("node2", 0) = ⟨0, 1, 0, 1, 1, 0, 0⟩ := by decide

example : countsFor testDrives ("node3", 0) = ⟨0, 0, 1, 0, 0, 0, 0⟩ := by decide

example : countsFor testDrives ("node3", 1) = ⟨0, 0, 0, 0, 0, 1, 1⟩ := by decide

example :
    driveKeys testDrives =
      [("node1", 0), ("node2", 0), ("node3", 0), ("node1", 1),
        ("node2", 1), ("node3", 1)] := by decide

example :
    countsFor [⟨"node1", "online", 1, 0⟩, ⟨"node1", "unknown_state", 1, 0⟩,
      ⟨"node2", "another_unknown", 1, 0⟩] ("node2", 1) =
      StateCounts.zero := by decide

example : classifyDrive ⟨"node2", "unknown_state", 1, 0⟩ = none := by decide

example : classifyDrive ⟨"node2", "verifying", 0, 0⟩ = some .verifying := by
  decide
